import Mathlib

/-!
Shallow embedding of `scripts/download_video.py`, a CLI glue script that
invokes an external downloader (yt-dlp) and a media prober (ffprobe) and
prints one structured result record to standard output.

External processes and the filesystem are modelled as an environment
record (`Env`): the sub-process oracle `run` maps a command line to an
exit code and captured output, the downloader side effect on the output
file is the oracle field `download_writes`, and the probe is read-only
(matching the interface contract in the design notes: the prober only
emits the height of the first video stream).  Python exceptions are
modelled with `Option String` fields carrying the rendered message.
-/

namespace DownloadVideo

/-- Python str.strip / startswith over character lists, translated from
CPython semantics (whitespace set restricted to the ASCII characters
that occur in sub-process output). -/
def isSpaceChar (c : Char) : Bool :=
  c == ' ' || c == '\t' || c == '\n' || c == '\r' || c == '\x0b' || c == '\x0c'

def stripChars (cs : List Char) : List Char :=
  ((cs.dropWhile isSpaceChar).reverse.dropWhile isSpaceChar).reverse

/-- Model of Python str.strip(). -/
def pyStrip (s : String) : String :=
  String.mk (stripChars s.data)

def startsWithChars : List Char → List Char → Bool
  | _, [] => true
  | [], _ :: _ => false
  | c :: cs, p :: ps => c == p && startsWithChars cs ps

/-- Model of Python str.startswith(pat). -/
def pyStartsWith (s pat : String) : Bool :=
  startsWithChars s.data pat.data

/-- Index one past the last slash of the list (Python p.rfind(sep) + 1,
and 0 when there is no slash). -/
def afterLastSlash (cs : List Char) : Nat :=
  (List.range cs.length).foldl (fun acc j => if cs.getD j ' ' = '/' then j + 1 else acc) 0

def rstripSlashes (cs : List Char) : List Char :=
  (cs.reverse.dropWhile (· == '/')).reverse

/-- Model of posixpath.dirname: everything up to the last slash, with
trailing slashes stripped unless the head is all slashes. -/
def dirname (p : String) : String :=
  let cs := p.data
  let head := cs.take (afterLastSlash cs)
  if head ≠ [] ∧ head.any (fun c => ¬ (c = '/')) then String.mk (rstripSlashes head)
  else String.mk head

/-- Model of posixpath.join for two components. -/
def pathJoin (a b : String) : String :=
  if pyStartsWith b "/" then b
  else if a = "" ∨ a.data.getLast? = some '/' then a ++ b
  else a ++ "/" ++ b

/-- Model of Python int(s) on sub-process text output: strip surrounding
whitespace, then an optional sign followed by a non-empty run of digits;
anything else raises ValueError, modelled as `none`. -/
def digitsVal : List Char → Option Nat
  | [] => none
  | cs => if cs.all Char.isDigit
          then some (cs.foldl (fun a c => a * 10 + (c.toNat - 48)) 0)
          else none

def pyInt (s : String) : Option Int :=
  match (pyStrip s).data with
  | '+' :: cs => (digitsVal cs).map Int.ofNat
  | '-' :: cs => (digitsVal cs).map (fun n => -(n : Int))
  | cs => (digitsVal cs).map Int.ofNat

/-- Result of subprocess.run with captured output. -/
structure ProcResult where
  returncode : Int
  stdout : String
  stderr : String

/-- The environment of one invocation: command-line arguments, the
relevant filesystem facts, and oracles for the two external binaries.
`cookies_first_line` is `some l` exactly when cookies.txt exists next to
the script and its first line reads `l`; `download_writes` is the size
of the file the downloader leaves at the output path (`none` for no
file); `download_raises` / `makedirs_error` model raised OS errors with
their rendered message. -/
structure Env where
  argv : List String
  platform_win32 : Bool
  script_dir : String
  cookies_first_line : Option String
  pre_existing_size : Option Nat
  run : List String → ProcResult
  download_writes : Option Nat
  download_raises : Option String
  makedirs_error : Option String

/-- One JSON record printed to standard output: success with resolution
label and echoed output path, or failure with an error message. -/
inductive Record where
  | success (resolution : String) (output_path : String)
  | failure (error : String)
deriving DecidableEq

/-- Observable outcome of one process run: the JSON records printed to
standard output in order, the process exit status, an uncaught exception
escaping `main` (traceback on standard error, no record), the
sub-process command lines constructed in order, whether the invalid
cookie warning was printed to standard error, and the file present at
the output path when the process ends. -/
structure RunResult where
  records : List Record
  exit_code : Int
  uncaught : Option String
  commands : List (List String)
  warned : Bool
  final_size : Option Nat
deriving DecidableEq

def ytdlp_format : String := "best[ext=mp4][vcodec^=avc1]/best[ext=mp4]/mp4"

def netscape_header : String := "# Netscape HTTP Cookie File"

def usage_error : String :=
  "Usage: python download_video.py <url> <start_time> <end_time> <output_path>"

def invalid_file_error : String :=
  "yt-dlp failed or produced invalid file. See logs above."

/-- os.makedirs of the empty string raises FileNotFoundError. -/
def makedirs_empty_error : String :=
  "FileNotFoundError: No such file or directory:"

def ytdlp_path (env : Env) : String :=
  if env.platform_win32 then pathJoin (pathJoin env.script_dir "..") "yt-dlp.exe"
  else "yt-dlp"

def cookies_path (env : Env) : String :=
  pathJoin env.script_dir "cookies.txt"

/-- The download command before cookie handling (lines 31-38). -/
def base_cmd (env : Env) (url output_path : String) : List String :=
  [ytdlp_path env, "-f", ytdlp_format, "-o", output_path, url]

/-- Python list.insert(-1, a): insert before the last element. -/
def insert_neg1 (xs : List String) (a : String) : List String :=
  xs.take (xs.length - 1) ++ [a] ++ xs.drop (xs.length - 1)

/-- Cookie handling of lines 39-51: the command actually run, and
whether the invalid-format warning was printed to standard error. -/
def download_cmd (env : Env) (url output_path : String) : List String × Bool :=
  match env.cookies_first_line with
  | none => (base_cmd env url output_path, false)
  | some l =>
    if pyStartsWith (pyStrip l) netscape_header then
      (insert_neg1 (insert_neg1 (base_cmd env url output_path) "--cookies") (cookies_path env),
       false)
    else (base_cmd env url output_path, true)

/-- Outcome of download_with_ytdlp: the command line, whether the cookie
warning was printed, a raised exception (if any), the boolean return
value, and the file at the output path afterwards (the pre-existing
file is deleted first, lines 27-28). -/
structure DlResult where
  cmd : List String
  warned : Bool
  raised : Option String
  ok : Bool
  file_after : Option Nat

/-- Lines 14-59: delete any pre-existing output file, build the command
with optional cookie flag, run the downloader, return returncode == 0. -/
def download_with_ytdlp (env : Env) (url output_path : String) : DlResult :=
  let cw := download_cmd env url output_path
  match env.download_raises with
  | some m => ⟨cw.1, cw.2, some m, false, none⟩
  | none => ⟨cw.1, cw.2, none, (env.run cw.1).returncode == 0, env.download_writes⟩

/-- The ffprobe command of lines 68-79. -/
def ffprobe_cmd (output_path : String) : List String :=
  ["ffprobe", "-v", "quiet", "-select_streams", "v:0", "-show_entries",
   "stream=height", "-of", "csv=s=x:p=0", output_path]

/-- The threshold classification of lines 84-91. -/
def classifyHeight (height : Int) : String :=
  if height ≥ 1080 then "1080p"
  else if height ≥ 720 then "720p"
  else if height ≥ 480 then "480p"
  else toString height ++ "p"

/-- Lines 62-95: run ffprobe; on zero exit parse the height and
classify it; on non-zero exit, unparseable output, or any raised error,
return "unknown" (the try/except makes the function total). -/
def get_video_resolution (env : Env) (output_path : String) : String :=
  let r := env.run (ffprobe_cmd output_path)
  if r.returncode == 0 then
    match pyInt r.stdout with
    | some height => classifyHeight height
    | none => "unknown"
  else "unknown"

/-- Lines 121-124: not success or not exists or size under 1000,
with the short-circuit on existence before getsize. -/
def missing_or_small : Option Nat → Bool
  | none => true
  | some sz => sz < 1000

/-- The body of main after argument extraction (lines 114-151).
os.makedirs runs before the try block: when the dirname of the output
path is empty, or the filesystem refuses the directory, the exception
escapes main (records stay empty).  Inside the try, a raised error is
caught and reported; otherwise validation and then probing happen. -/
def run_main (env : Env) (url output_path : String) : RunResult :=
  if dirname output_path = "" then
    ⟨[], 1, some makedirs_empty_error, [], false, env.pre_existing_size⟩
  else
    match env.makedirs_error with
    | some m => ⟨[], 1, some m, [], false, env.pre_existing_size⟩
    | none =>
      let dl := download_with_ytdlp env url output_path
      match dl.raised with
      | some m => ⟨[Record.failure m], 1, none, [dl.cmd], dl.warned, none⟩
      | none =>
        if !dl.ok || missing_or_small dl.file_after then
          ⟨[Record.failure invalid_file_error], 1, none, [dl.cmd], dl.warned, none⟩
        else
          ⟨[Record.success (get_video_resolution env output_path) output_path],
           0, none, [dl.cmd, ffprobe_cmd output_path], dl.warned, dl.file_after⟩

/-- Lines 98-151: usage check on fewer than five argv entries (script
name plus four positional arguments), then the main body on
sys.argv[1] (url) and sys.argv[4] (output path); sys.argv[2] and
sys.argv[3] are bound but never used. -/
def main (env : Env) : RunResult :=
  if h : env.argv.length < 5 then
    ⟨[Record.failure usage_error], 1, none, [], false, env.pre_existing_size⟩
  else
    run_main env (env.argv.get ⟨1, by omega⟩) (env.argv.get ⟨4, by omega⟩)

/-! Unfolding lemmas for the branches of `main` / `run_main`. -/

lemma main_eq_run_main (env : Env) (prog url st en out : String) (rest : List String)
    (hargv : env.argv = prog :: url :: st :: en :: out :: rest) :
    main env = run_main env url out := by
  obtain ⟨argv, pw, sd, cf, pe, run, dw, dr, me⟩ := env
  simp only at hargv
  subst hargv
  unfold main
  rw [dif_neg (by simp)]
  rfl

lemma main_usage (env : Env) (h : env.argv.length < 5) :
    main env = ⟨[Record.failure usage_error], 1, none, [], false, env.pre_existing_size⟩ := by
  simp [main, h]

lemma run_main_argv_irrel (env : Env) (a : List String) (url out : String) :
    run_main { env with argv := a } url out = run_main env url out := rfl

lemma dl_raised (env : Env) (url out : String) :
    (download_with_ytdlp env url out).raised = env.download_raises := by
  unfold download_with_ytdlp
  cases env.download_raises <;> rfl

lemma dl_cmd (env : Env) (url out : String) :
    (download_with_ytdlp env url out).cmd = (download_cmd env url out).1 := by
  unfold download_with_ytdlp
  cases env.download_raises <;> rfl

lemma dl_warned (env : Env) (url out : String) :
    (download_with_ytdlp env url out).warned = (download_cmd env url out).2 := by
  unfold download_with_ytdlp
  cases env.download_raises <;> rfl

lemma dl_ok (env : Env) (url out : String) (hr : env.download_raises = none) :
    (download_with_ytdlp env url out).ok =
      ((env.run (download_cmd env url out).1).returncode == 0) := by
  unfold download_with_ytdlp
  rw [hr]

lemma dl_file_after (env : Env) (url out : String) (hr : env.download_raises = none) :
    (download_with_ytdlp env url out).file_after = env.download_writes := by
  unfold download_with_ytdlp
  rw [hr]

lemma run_main_bare (env : Env) (url out : String) (h : dirname out = "") :
    run_main env url out = ⟨[], 1, some makedirs_empty_error, [], false, env.pre_existing_size⟩ := by
  simp [run_main, h]

lemma run_main_mkerr (env : Env) (url out m : String) (hd : dirname out ≠ "")
    (hm : env.makedirs_error = some m) :
    run_main env url out = ⟨[], 1, some m, [], false, env.pre_existing_size⟩ := by
  simp [run_main, hd, hm]

lemma run_main_raised (env : Env) (url out m : String) (hd : dirname out ≠ "")
    (hm : env.makedirs_error = none) (hr : env.download_raises = some m) :
    run_main env url out = ⟨[Record.failure m], 1, none,
      [(download_with_ytdlp env url out).cmd], (download_with_ytdlp env url out).warned, none⟩ := by
  simp [run_main, hd, hm, dl_raised, hr]

lemma run_main_invalid (env : Env) (url out : String) (hd : dirname out ≠ "")
    (hm : env.makedirs_error = none) (hr : env.download_raises = none)
    (hb : (!(download_with_ytdlp env url out).ok ||
            missing_or_small (download_with_ytdlp env url out).file_after) = true) :
    run_main env url out = ⟨[Record.failure invalid_file_error], 1, none,
      [(download_with_ytdlp env url out).cmd], (download_with_ytdlp env url out).warned, none⟩ := by
  simp [run_main, hd, hm, dl_raised, hr, hb]

lemma run_main_success (env : Env) (url out : String) (hd : dirname out ≠ "")
    (hm : env.makedirs_error = none) (hr : env.download_raises = none)
    (hb : (!(download_with_ytdlp env url out).ok ||
            missing_or_small (download_with_ytdlp env url out).file_after) = false) :
    run_main env url out = ⟨[Record.success (get_video_resolution env out) out], 0, none,
      [(download_with_ytdlp env url out).cmd, ffprobe_cmd out],
      (download_with_ytdlp env url out).warned, (download_with_ytdlp env url out).file_after⟩ := by
  simp [run_main, hd, hm, dl_raised, hr, hb]

lemma missing_or_small_eq_false {o : Option Nat} (h : missing_or_small o = false) :
    ∃ sz, o = some sz ∧ 1000 ≤ sz := by
  cases o with
  | none => simp [missing_or_small] at h
  | some sz =>
    refine ⟨sz, rfl, ?_⟩
    simp [missing_or_small] at h
    omega

/-! Claim theorems. -/

/-- C1: the resolution classification is a pure function of the parsed
integer height: at least 1080 gives "1080p", 720 up to 1079 gives
"720p", 480 up to 719 gives "480p", and below 480 the decimal rendering
of the height suffixed with "p"; in particular 1080, 1079, 720, 719,
480, 479 and 0 map to "1080p", "720p", "720p", "480p", "480p", "479p"
and "0p". -/
theorem C1_resolution_classification (h : Int) :
    (1080 ≤ h → classifyHeight h = "1080p") ∧
    (720 ≤ h ∧ h < 1080 → classifyHeight h = "720p") ∧
    (480 ≤ h ∧ h < 720 → classifyHeight h = "480p") ∧
    (h < 480 → classifyHeight h = toString h ++ "p") ∧
    classifyHeight 1080 = "1080p" ∧ classifyHeight 1079 = "720p" ∧
    classifyHeight 720 = "720p" ∧ classifyHeight 719 = "480p" ∧
    classifyHeight 480 = "480p" ∧ classifyHeight 479 = "479p" ∧
    classifyHeight 0 = "0p" := by
  refine ⟨?_, ?_, ?_, ?_, by decide, by decide, by decide, by decide,
    by decide, by decide, by decide⟩
  · intro hh
    unfold classifyHeight
    rw [if_pos (by omega)]
  · intro hh
    unfold classifyHeight
    rw [if_neg (by omega), if_pos (by omega)]
  · intro hh
    unfold classifyHeight
    rw [if_neg (by omega), if_neg (by omega), if_pos (by omega)]
  · intro hh
    unfold classifyHeight
    rw [if_neg (by omega), if_neg (by omega), if_neg (by omega)]

theorem C1_witness : classifyHeight 1079 = "720p" :=
  (C1_resolution_classification 1079).2.1 ⟨by decide, by decide⟩

/-- C9: with fewer than four positional arguments (argv shorter than
five entries including the script name) the program prints exactly the
usage failure record, exits with status 1, starts no sub-process, and
leaves the filesystem untouched. -/
theorem C9_usage (env : Env) (h : env.argv.length < 5) :
    (main env).records = [Record.failure usage_error] ∧
    (main env).exit_code = 1 ∧
    (main env).commands = [] ∧
    (main env).final_size = env.pre_existing_size ∧
    (main env).uncaught = none := by
  rw [main_usage env h]
  exact ⟨rfl, rfl, rfl, rfl, rfl⟩

def env_usage_w : Env :=
  { argv := ["download_video.py", "https://youtu.be/a"]
    platform_win32 := false
    script_dir := "scripts"
    cookies_first_line := none
    pre_existing_size := none
    run := fun _ => ⟨1, "", ""⟩
    download_writes := none
    download_raises := none
    makedirs_error := none }

theorem C9_witness :
    (main env_usage_w).records = [Record.failure usage_error] ∧
    (main env_usage_w).exit_code = 1 ∧
    (main env_usage_w).commands = [] ∧
    (main env_usage_w).final_size = env_usage_w.pre_existing_size ∧
    (main env_usage_w).uncaught = none :=
  C9_usage env_usage_w (by decide)

/-- C10: when the output-path argument has no directory component, the
directory-creation call raises before the top-level handler is in
effect: no JSON record reaches standard output, the exception escapes,
the process status is 1 and no sub-process was started. -/
theorem C10_bare_output_path (env : Env) (prog url st en out : String) (rest : List String)
    (hargv : env.argv = prog :: url :: st :: en :: out :: rest)
    (hbare : dirname out = "") :
    (main env).records = [] ∧
    (main env).uncaught = some makedirs_empty_error ∧
    (main env).exit_code = 1 ∧
    (main env).commands = [] := by
  rw [main_eq_run_main env prog url st en out rest hargv, run_main_bare env url out hbare]
  exact ⟨rfl, rfl, rfl, rfl⟩

def env_bare_w : Env :=
  { argv := ["download_video.py", "https://youtu.be/b", "0", "5", "out.mp4"]
    platform_win32 := false
    script_dir := "scripts"
    cookies_first_line := none
    pre_existing_size := none
    run := fun _ => ⟨0, "", ""⟩
    download_writes := some 5000
    download_raises := none
    makedirs_error := none }

theorem C10_witness :
    (main env_bare_w).records = [] ∧
    (main env_bare_w).uncaught = some makedirs_empty_error ∧
    (main env_bare_w).exit_code = 1 ∧
    (main env_bare_w).commands = [] :=
  C10_bare_output_path env_bare_w "download_video.py" "https://youtu.be/b" "0" "5"
    "out.mp4" [] rfl (by decide)

/-- C8: two invocations that differ only in the start-time and end-time
arguments produce identical observable behaviour: the same constructed
sub-process commands, the same records on standard output, the same
exit status, warnings and final file state — the times are never
interpreted. -/
theorem C8_times_ignored (env : Env) (prog url st1 en1 st2 en2 out : String)
    (rest : List String) :
    main { env with argv := prog :: url :: st1 :: en1 :: out :: rest } =
    main { env with argv := prog :: url :: st2 :: en2 :: out :: rest } := by
  rw [main_eq_run_main _ prog url st1 en1 out rest rfl,
      main_eq_run_main _ prog url st2 en2 out rest rfl,
      run_main_argv_irrel]
  exact (run_main_argv_irrel env (prog :: url :: st2 :: en2 :: out :: rest) url out).symm

lemma argv_shape (env : Env) (h5 : ¬ env.argv.length < 5) :
    ∃ prog url st en out rest, env.argv = prog :: url :: st :: en :: out :: rest := by
  rcases henv : env.argv with _ | ⟨a, _ | ⟨b, _ | ⟨c, _ | ⟨d, _ | ⟨e, t⟩⟩⟩⟩⟩ <;>
    rw [henv] at h5
  · simp at h5
  · simp at h5
  · simp at h5
  · simp at h5
  · simp at h5
  · exact ⟨a, b, c, d, e, t, rfl⟩

lemma main_cases (env : Env) :
    (∃ r, (main env).records = [r] ∧ (main env).uncaught = none) ∨
    ((main env).records = [] ∧ (main env).uncaught ≠ none) := by
  by_cases h5 : env.argv.length < 5
  · left
    exact ⟨Record.failure usage_error, by rw [main_usage env h5], by rw [main_usage env h5]⟩
  · obtain ⟨prog, url, st, en, out, rest, hargv⟩ := argv_shape env h5
    rw [main_eq_run_main env prog url st en out rest hargv]
    by_cases hd : dirname out = ""
    · right
      rw [run_main_bare env url out hd]
      exact ⟨rfl, by simp⟩
    · cases hm : env.makedirs_error with
      | some m =>
        right
        rw [run_main_mkerr env url out m hd hm]
        exact ⟨rfl, by simp⟩
      | none =>
        cases hr : env.download_raises with
        | some m =>
          left
          rw [run_main_raised env url out m hd hm hr]
          exact ⟨_, rfl, rfl⟩
        | none =>
          cases hb : (!(download_with_ytdlp env url out).ok ||
              missing_or_small (download_with_ytdlp env url out).file_after) with
          | true =>
            left
            rw [run_main_invalid env url out hd hm hr hb]
            exact ⟨_, rfl, rfl⟩
          | false =>
            left
            rw [run_main_success env url out hd hm hr hb]
            exact ⟨_, rfl, rfl⟩

def env_c2_cex : Env :=
  { argv := ["download_video.py", "https://youtu.be/c2", "0", "5", "video.mp4"]
    platform_win32 := false
    script_dir := "scripts"
    cookies_first_line := none
    pre_existing_size := none
    run := fun _ => ⟨0, "", ""⟩
    download_writes := some 5000
    download_raises := none
    makedirs_error := none }

/-- C2 counterexample: with the bare output path "video.mp4" the
directory-creation call raises before the try block is entered, so the
error is not caught: no failure record reaches standard output and the
exception escapes — refuting that filesystem errors creating the output
directory are reported as a structured failure record. -/
theorem C2_counterexample :
    (main env_c2_cex).records = [] ∧
    (main env_c2_cex).uncaught ≠ none ∧
    (main env_c2_cex).exit_code = 1 := by
  refine ⟨by decide, by decide, by decide⟩

/-- C2 amended: an unexpected error raised inside the try block (from
the download step onwards) is caught at the top level, its message is
reported as a failure record on standard output, any partial file is
deleted, and the exit status is 1; an error raised by the
directory-creation call, which runs before the handler is in effect, is
not caught and produces no record. -/
theorem C2_amended_caught (env : Env) (prog url st en out m : String) (rest : List String)
    (hargv : env.argv = prog :: url :: st :: en :: out :: rest)
    (hdir : dirname out ≠ "")
    (hmk : env.makedirs_error = none)
    (hr : env.download_raises = some m) :
    (main env).records = [Record.failure m] ∧
    (main env).exit_code = 1 ∧
    (main env).final_size = none ∧
    (main env).uncaught = none := by
  rw [main_eq_run_main env prog url st en out rest hargv,
      run_main_raised env url out m hdir hmk hr]
  exact ⟨rfl, rfl, rfl, rfl⟩

def env_c2_w : Env :=
  { argv := ["download_video.py", "https://youtu.be/c2w", "0", "5", "clips/out.mp4"]
    platform_win32 := false
    script_dir := "scripts"
    cookies_first_line := none
    pre_existing_size := none
    run := fun _ => ⟨0, "", ""⟩
    download_writes := none
    download_raises := some "No such file or directory: yt-dlp"
    makedirs_error := none }

theorem C2_witness :
    (main env_c2_w).records = [Record.failure "No such file or directory: yt-dlp"] ∧
    (main env_c2_w).exit_code = 1 ∧
    (main env_c2_w).final_size = none ∧
    (main env_c2_w).uncaught = none :=
  C2_amended_caught env_c2_w "download_video.py" "https://youtu.be/c2w" "0" "5"
    "clips/out.mp4" "No such file or directory: yt-dlp" [] rfl (by decide) rfl rfl

/-- C3: with at least four positional arguments and the directory
created, if the download step returned false, or the output file is
missing afterwards, or its size is under 1000 bytes, the program prints
the fixed failure record, deletes any file at the output path, and
exits with status 1; a downloaded file of exactly 1000 bytes passes the
validation and the run ends in a success record with exit status 0. -/
theorem C3_validation (env : Env) (prog url st en out : String) (rest : List String)
    (hargv : env.argv = prog :: url :: st :: en :: out :: rest)
    (hdir : dirname out ≠ "")
    (hmk : env.makedirs_error = none)
    (hr : env.download_raises = none) :
    ((download_with_ytdlp env url out).ok = false ∨
        (download_with_ytdlp env url out).file_after = none ∨
        (∃ sz, (download_with_ytdlp env url out).file_after = some sz ∧ sz < 1000) →
      (main env).records = [Record.failure invalid_file_error] ∧
      (main env).exit_code = 1 ∧
      (main env).final_size = none) ∧
    ((download_with_ytdlp env url out).ok = true →
      (download_with_ytdlp env url out).file_after = some 1000 →
      (main env).exit_code = 0 ∧
      (main env).records = [Record.success (get_video_resolution env out) out] ∧
      (main env).final_size = some 1000) := by
  rw [main_eq_run_main env prog url st en out rest hargv]
  constructor
  · intro hbad
    have hb : (!(download_with_ytdlp env url out).ok ||
        missing_or_small (download_with_ytdlp env url out).file_after) = true := by
      rcases hbad with h | h | ⟨sz, hsz, hlt⟩
      · simp [h]
      · simp [h, missing_or_small]
      · simp [hsz, missing_or_small, hlt]
    rw [run_main_invalid env url out hdir hmk hr hb]
    exact ⟨rfl, rfl, rfl⟩
  · intro hok hsz
    have hb : (!(download_with_ytdlp env url out).ok ||
        missing_or_small (download_with_ytdlp env url out).file_after) = false := by
      simp [hok, hsz, missing_or_small]
    rw [run_main_success env url out hdir hmk hr hb]
    exact ⟨rfl, rfl, hsz⟩

def env_c3_w : Env :=
  { argv := ["download_video.py", "https://youtu.be/c3", "0", "5", "clips/c3.mp4"]
    platform_win32 := false
    script_dir := "scripts"
    cookies_first_line := none
    pre_existing_size := none
    run := fun _ => ⟨1, "", ""⟩
    download_writes := none
    download_raises := none
    makedirs_error := none }

theorem C3_witness :
    (main env_c3_w).records = [Record.failure invalid_file_error] ∧
    (main env_c3_w).exit_code = 1 ∧
    (main env_c3_w).final_size = none :=
  (C3_validation env_c3_w "download_video.py" "https://youtu.be/c3" "0" "5"
    "clips/c3.mp4" [] rfl (by decide) rfl rfl).1 (Or.inl (by decide))

/-- C4: whenever a success record is printed, the file at the output
path exists with size at least 1000 bytes at that moment, and the
record echoes exactly the output-path argument (the fifth argv entry). -/
theorem C4_success_invariant (env : Env) (r p : String)
    (h : Record.success r p ∈ (main env).records) :
    (∃ sz, (main env).final_size = some sz ∧ 1000 ≤ sz) ∧
    env.argv.get? 4 = some p := by
  by_cases h5 : env.argv.length < 5
  · rw [main_usage env h5] at h
    simp at h
  · obtain ⟨prog, url, st, en, out, rest, hargv⟩ := argv_shape env h5
    rw [main_eq_run_main env prog url st en out rest hargv] at h ⊢
    by_cases hd : dirname out = ""
    · rw [run_main_bare env url out hd] at h
      simp at h
    · cases hm : env.makedirs_error with
      | some m =>
        rw [run_main_mkerr env url out m hd hm] at h
        simp at h
      | none =>
        cases hr : env.download_raises with
        | some m =>
          rw [run_main_raised env url out m hd hm hr] at h
          simp at h
        | none =>
          cases hb : (!(download_with_ytdlp env url out).ok ||
              missing_or_small (download_with_ytdlp env url out).file_after) with
          | true =>
            rw [run_main_invalid env url out hd hm hr hb] at h
            simp at h
          | false =>
            rw [run_main_success env url out hd hm hr hb] at h ⊢
            simp at h
            obtain ⟨hres, hp⟩ := h
            have hmiss : missing_or_small (download_with_ytdlp env url out).file_after = false :=
              (Bool.or_eq_false_iff.mp hb).2
            obtain ⟨sz, hsz, hge⟩ := missing_or_small_eq_false hmiss
            subst hp
            refine ⟨⟨sz, by simpa using hsz, hge⟩, ?_⟩
            rw [hargv]
            rfl

def env_c4_w : Env :=
  { argv := ["download_video.py", "https://youtu.be/c4", "0", "5", "clips/c4.mp4"]
    platform_win32 := false
    script_dir := "scripts"
    cookies_first_line := none
    pre_existing_size := none
    run := fun _ => ⟨0, "1080\n", ""⟩
    download_writes := some 5000
    download_raises := none
    makedirs_error := none }

theorem C4_witness :
    (∃ sz, (main env_c4_w).final_size = some sz ∧ 1000 ≤ sz) ∧
    env_c4_w.argv.get? 4 = some "clips/c4.mp4" :=
  C4_success_invariant env_c4_w "1080p" "clips/c4.mp4" (by decide)

def env_c5_cex : Env :=
  { argv := ["download_video.py", "https://youtu.be/c5", "0", "5", "c5.mp4"]
    platform_win32 := false
    script_dir := "scripts"
    cookies_first_line := none
    pre_existing_size := none
    run := fun _ => ⟨0, "", ""⟩
    download_writes := some 5000
    download_raises := none
    makedirs_error := none }

/-- C5 counterexample: on the path where the output path has no
directory component, the directory-creation call raises before any
record is printed: standard output carries zero JSON objects, not
exactly one. -/
theorem C5_counterexample : (main env_c5_cex).records.length ≠ 1 := by decide

/-- C5 amended: on every path where no exception escapes main, exactly
one record is printed — by construction either a success record with
resolution and output path or a failure record with an error message;
on the directory-creation failure paths an exception escapes and no
record at all is printed. -/
theorem C5_amended_single_record (env : Env) :
    ((main env).uncaught = none → ∃ r, (main env).records = [r]) ∧
    ((main env).uncaught ≠ none → (main env).records = []) := by
  rcases main_cases env with ⟨r, hrec, hu⟩ | ⟨hrec, hu⟩
  · exact ⟨fun _ => ⟨r, hrec⟩, fun h => absurd hu h⟩
  · exact ⟨fun h => absurd h hu, fun _ => hrec⟩

def env_c5_w : Env :=
  { argv := ["download_video.py", "https://youtu.be/c5w", "0", "5", "clips/c5.mp4"]
    platform_win32 := false
    script_dir := "scripts"
    cookies_first_line := none
    pre_existing_size := none
    run := fun _ => ⟨1, "", ""⟩
    download_writes := none
    download_raises := none
    makedirs_error := none }

theorem C5_witness : ∃ r, (main env_c5_w).records = [r] :=
  (C5_amended_single_record env_c5_w).1 (by decide)

def env_c6_cex : Env :=
  { argv := ["download_video.py", "https://youtu.be/c6", "0", "5", "clips/c6.mp4"]
    platform_win32 := false
    script_dir := "scripts"
    cookies_first_line := some "# Netscape HTTP Cookie File v1.0\n"
    pre_existing_size := none
    run := fun _ => ⟨0, "", ""⟩
    download_writes := some 5000
    download_raises := none
    makedirs_error := none }

/-- C6 counterexample: the first line of cookies.txt carries a trailing
version tag, so it is not exactly the Netscape header string, yet the
cookie flag is attached to the download command — the code only checks
that the stripped first line starts with the header. -/
theorem C6_counterexample :
    "--cookies" ∈ (download_with_ytdlp env_c6_cex "https://youtu.be/c6" "clips/c6.mp4").cmd ∧
    env_c6_cex.cookies_first_line = some "# Netscape HTTP Cookie File v1.0\n" ∧
    "# Netscape HTTP Cookie File v1.0\n" ≠ netscape_header ∧
    pyStrip "# Netscape HTTP Cookie File v1.0\n" ≠ netscape_header := by
  exact ⟨by decide, rfl, by decide, by decide⟩

/-- C6 amended: the cookie flag plus the cookie-file path is inserted
immediately before the URL if and only if cookies.txt exists and its
stripped first line starts with the Netscape header string; when the
file exists but its first line does not start with the header, the
warning is printed to standard error and the plain command without the
cookie flag is used. -/
theorem C6_amended_cookie_condition (env : Env) (url out : String) :
    ((download_with_ytdlp env url out).cmd =
        [ytdlp_path env, "-f", ytdlp_format, "-o", out, "--cookies", cookies_path env, url] ↔
      ∃ l, env.cookies_first_line = some l ∧
        pyStartsWith (pyStrip l) netscape_header = true) ∧
    ((download_with_ytdlp env url out).warned = true ↔
      ∃ l, env.cookies_first_line = some l ∧
        pyStartsWith (pyStrip l) netscape_header = false) ∧
    ((download_with_ytdlp env url out).warned = true →
      (download_with_ytdlp env url out).cmd =
        [ytdlp_path env, "-f", ytdlp_format, "-o", out, url]) := by
  rw [dl_cmd, dl_warned]
  cases hc : env.cookies_first_line with
  | none => simp [download_cmd, hc, base_cmd]
  | some l =>
    cases hp : pyStartsWith (pyStrip l) netscape_header with
    | true =>
      simp [download_cmd, hc, hp, base_cmd]
      rfl
    | false => simp [download_cmd, hc, hp, base_cmd]

/-- C7: the probe step is total and best-effort: a non-zero probe exit
or unparseable probe output yields the label "unknown", and an
invocation that passed validation still ends in a success record with
exit status 0 whatever the probe returns. -/
theorem C7_probe_best_effort (env : Env) (prog url st en out : String) (rest : List String)
    (hargv : env.argv = prog :: url :: st :: en :: out :: rest)
    (hdir : dirname out ≠ "")
    (hmk : env.makedirs_error = none)
    (hr : env.download_raises = none)
    (hok : (download_with_ytdlp env url out).ok = true)
    (hsz : ∃ sz, (download_with_ytdlp env url out).file_after = some sz ∧ 1000 ≤ sz) :
    (main env).exit_code = 0 ∧
    (main env).records = [Record.success (get_video_resolution env out) out] ∧
    ((env.run (ffprobe_cmd out)).returncode ≠ 0 → get_video_resolution env out = "unknown") ∧
    (pyInt (env.run (ffprobe_cmd out)).stdout = none → get_video_resolution env out = "unknown") := by
  obtain ⟨sz, hfa, hge⟩ := hsz
  have hb : (!(download_with_ytdlp env url out).ok ||
      missing_or_small (download_with_ytdlp env url out).file_after) = false := by
    simp [hok, hfa, missing_or_small]
    omega
  rw [main_eq_run_main env prog url st en out rest hargv,
      run_main_success env url out hdir hmk hr hb]
  refine ⟨rfl, rfl, ?_, ?_⟩
  · intro hrc
    simp only [get_video_resolution]
    rw [if_neg (by simpa using hrc)]
  · intro hparse
    simp only [get_video_resolution]
    by_cases hrc : (env.run (ffprobe_cmd out)).returncode == 0
    · rw [if_pos hrc, hparse]
    · rw [if_neg hrc]

def env_c7_w : Env :=
  { argv := ["download_video.py", "https://youtu.be/c7", "0", "5", "clips/c7.mp4"]
    platform_win32 := false
    script_dir := "scripts"
    cookies_first_line := none
    pre_existing_size := none
    run := fun _ => ⟨0, "N/A", ""⟩
    download_writes := some 2000
    download_raises := none
    makedirs_error := none }

theorem C7_witness :
    (main env_c7_w).exit_code = 0 ∧
    (main env_c7_w).records =
      [Record.success (get_video_resolution env_c7_w "clips/c7.mp4") "clips/c7.mp4"] ∧
    ((env_c7_w.run (ffprobe_cmd "clips/c7.mp4")).returncode ≠ 0 →
      get_video_resolution env_c7_w "clips/c7.mp4" = "unknown") ∧
    (pyInt (env_c7_w.run (ffprobe_cmd "clips/c7.mp4")).stdout = none →
      get_video_resolution env_c7_w "clips/c7.mp4" = "unknown") :=
  C7_probe_best_effort env_c7_w "download_video.py" "https://youtu.be/c7" "0" "5"
    "clips/c7.mp4" [] rfl (by decide) rfl rfl (by decide) ⟨2000, by decide, by decide⟩

end DownloadVideo
